import Mathlib

/-!
Verification development for the financial roadmap projection engine of
`financial_planning.py` (class `FinancialPlanner`).

The embedding below translates the roadmap simulation loop of
`create_financial_roadmap`, the analyzers `_analyze_retirement` and
`_analyze_goals`, the rate tables, and `_generate_roadmap_recommendations`
into executable Lean definitions.  Money amounts are modelled as exact
rationals (the Python source computes with floats; every formula is
translated symbolically, so the algebraic structure of the source is
preserved exactly).  Calendar years and ages are integers.

The only place the source leaves the rationals is the monthly-rate
computation inside the required-savings annuity formula, which takes a
real twelfth root (`(1 + r) ** (1/12)`).  The invocation of that formula
is therefore recorded symbolically (constructor `RequiredSavings.annuity`
carrying the shortfall, the annual rate fed into the formula, and the
number of months), which captures exactly the data the source passes to
the formula without embedding irrational arithmetic.
-/

/-- A financial goal, one element of `client_profile["financial_goals"]`:
a name, a target amount and an absolute target calendar year. -/
structure Goal where
  name : String
  target_amount : ℚ
  target_year : ℤ
deriving DecidableEq

/-- The client profile fields read by the roadmap engine
(`age`, `retirement_age`, `monthly_savings`, `income`, `risk_tolerance`,
`financial_goals`). -/
structure ClientProfile where
  risk_tolerance : String
  age : ℤ
  retirement_age : ℤ
  monthly_savings : ℚ
  income : ℚ
  financial_goals : List Goal
deriving DecidableEq

/-- One year of the projected timeline, mirroring the dict appended at the
end of each loop iteration of `create_financial_roadmap`.
`portfolio_value` is the start-of-year value (source key `portfolio_value`)
and `year_end_portfolio` the end-of-year value. -/
structure TimelineEntry where
  year : ℤ
  age : ℤ
  portfolio_value : ℚ
  contribution : ℚ
  growth : ℚ
  goal_withdrawals : ℚ
  retirement_withdrawal : ℚ
  year_end_portfolio : ℚ
  income : ℚ
  goals_achieved : List String
  is_retired : Bool
deriving DecidableEq

/-- The `expected_returns` table of `create_financial_roadmap`
(`{"conservative": 0.06, "moderate": 0.08, "aggressive": 0.10}`) together
with the `.get(..., 0.08)` default. -/
def expected_return_rate (risk_tolerance : String) : ℚ :=
  if risk_tolerance = "conservative" then 6 / 100
  else if risk_tolerance = "moderate" then 8 / 100
  else if risk_tolerance = "aggressive" then 10 / 100
  else 8 / 100

/-- `sorted(financial_goals, key=lambda x: x["target_year"])`. -/
def sort_goals (goals : List Goal) : List Goal :=
  goals.mergeSort (fun a b => a.target_year ≤ b.target_year)

/-- The body of the projection loop of `create_financial_roadmap`, run for
`n` remaining years.  `year` is the loop variable, `current_portfolio` the
running portfolio value threaded through the loop. -/
def project_years (goals : List Goal) (current_age retirement_age : ℤ)
    (annual_savings annual_income annual_return_rate : ℚ) (current_year : ℤ) :
    ℕ → ℤ → ℚ → List TimelineEntry
  | 0, _, _ => []
  | n + 1, year, current_portfolio =>
    let age := current_age + (year - current_year)
    let is_retired : Bool := retirement_age ≤ age
    let year_contribution := if is_retired then 0 else annual_savings
    let year_growth := current_portfolio * annual_return_rate
    let year_goals := goals.filter (fun g => g.target_year = year)
    let goal_withdrawals := (year_goals.map Goal.target_amount).sum
    let retirement_withdrawal := if is_retired then current_portfolio * (4 / 100) else 0
    let new_portfolio :=
      current_portfolio + year_growth + year_contribution - goal_withdrawals -
        retirement_withdrawal
    let year_income :=
      if is_retired then retirement_withdrawal
      else annual_income * (105 / 100 : ℚ) ^ (year - current_year).toNat
    { year := year
      age := age
      portfolio_value := current_portfolio
      contribution := year_contribution
      growth := year_growth
      goal_withdrawals := goal_withdrawals
      retirement_withdrawal := retirement_withdrawal
      year_end_portfolio := new_portfolio
      income := year_income
      goals_achieved := year_goals.map Goal.name
      is_retired := is_retired } ::
      project_years goals current_age retirement_age annual_savings annual_income
        annual_return_rate current_year n (year + 1) new_portfolio

/-- The fixed 40-year horizon of the projection loop
(`range(current_year, current_year + 40)`). -/
def horizon : ℕ := 40

/-- The timeline built by `create_financial_roadmap`: 40 simulated years
starting at the current calendar year, seeded with the current portfolio
value, using the sorted goal list and the risk-tier return rate. -/
def roadmap_timeline (current_year : ℤ) (portfolio_value : ℚ)
    (profile : ClientProfile) : List TimelineEntry :=
  project_years (sort_goals profile.financial_goals) profile.age profile.retirement_age
    (profile.monthly_savings * 12) profile.income
    (expected_return_rate profile.risk_tolerance) current_year horizon current_year
    portfolio_value

/-- The result of `_analyze_retirement`.  The degenerate "Unknown" branch of
the source returns a dict that carries only the first four keys; the last
two fields are therefore `Option`-valued, `none` standing for a key that is
absent from the returned dict. -/
structure RetirementAnalysis where
  status : String
  retirement_corpus : ℚ
  sustainable_income : ℚ
  income_replacement_ratio : ℚ
  portfolio_sustainability : Option String
  portfolio_at_age_90 : Option ℚ
deriving DecidableEq

/-- `pre_retirement_entries[0]["income"] if pre_retirement_entries else 0`
of `_analyze_retirement`: the income of the first timeline entry whose age
is one year before retirement, or `0` when there is none. -/
def pre_retirement_income (retirement_age : ℤ) (timeline : List TimelineEntry) : ℚ :=
  match timeline.filter (fun t => t.age = retirement_age - 1) with
  | [] => 0
  | p :: _ => p.income

/-- `_analyze_retirement`, reading `retirement_age` from the client profile. -/
def analyze_retirement (retirement_age : ℤ) (timeline : List TimelineEntry) :
    RetirementAnalysis :=
  match timeline.filter (fun t => t.age = retirement_age) with
  | [] =>
    { status := "Unknown"
      retirement_corpus := 0
      sustainable_income := 0
      income_replacement_ratio := 0
      portfolio_sustainability := none
      portfolio_at_age_90 := none }
  | retirement_entry :: _ =>
    let pre_income := pre_retirement_income retirement_age timeline
    let retirement_corpus := retirement_entry.portfolio_value
    let sustainable_income := retirement_corpus * (4 / 100)
    let income_replacement_ratio :=
      if 0 < pre_income then sustainable_income / pre_income * 100 else 0
    let status :=
      if 80 ≤ income_replacement_ratio then "Excellent"
      else if 60 ≤ income_replacement_ratio then "Good"
      else if 40 ≤ income_replacement_ratio then "Adequate"
      else "Needs Attention"
    let end_portfolio :=
      match (timeline.filter (fun t => t.is_retired)).getLast? with
      | none => 0
      | some t => t.year_end_portfolio
    let sustainability :=
      if retirement_corpus * (1 / 2) < end_portfolio then "Sustainable" else "At Risk"
    { status := status
      retirement_corpus := retirement_corpus
      sustainable_income := sustainable_income
      income_replacement_ratio := income_replacement_ratio
      portfolio_sustainability := some sustainability
      portfolio_at_age_90 := some end_portfolio }

/-- The `required_monthly_savings` field of a goal analysis.  The source
either leaves the Python value `0` (`zero`, the annuity inversion skipped)
or evaluates the PMT formula; the `annuity` constructor records the
arguments the source feeds to that formula: the shortfall, the annual rate
from `_get_expected_return_for_timeframe`, and the number of months
`n = years_to_goal * 12`.  (The numeric value of the formula involves the
real twelfth root `(1 + rate) ** (1/12)` and is not rational.) -/
inductive RequiredSavings where
  | zero : RequiredSavings
  | annuity (shortfall : ℚ) (annual_rate : ℚ) (months : ℤ) : RequiredSavings
deriving DecidableEq

/-- The `base_rates` dict of `_get_expected_return_for_timeframe`
(`{"conservative": 0.05, "moderate": 0.07, "aggressive": 0.09}`) with the
`.get(..., 0.07)` default. -/
def goal_base_rate (risk_tolerance : String) : ℚ :=
  if risk_tolerance = "conservative" then 5 / 100
  else if risk_tolerance = "moderate" then 7 / 100
  else if risk_tolerance = "aggressive" then 9 / 100
  else 7 / 100

/-- `_get_expected_return_for_timeframe`: the goal-horizon base rate
adjusted by the time horizon. -/
def get_expected_return_for_timeframe (risk_tolerance : String) (years : ℤ) : ℚ :=
  let base_rate := goal_base_rate risk_tolerance
  if years < 3 then base_rate - 2 / 100
  else if years < 10 then base_rate
  else base_rate + 1 / 100

/-- A five-asset-class percentage mix, as returned by
`_recommend_goal_allocation`. -/
structure AssetMix where
  equity : ℚ
  bonds : ℚ
  cash : ℚ
  gold : ℚ
  reit : ℚ
deriving DecidableEq

/-- `_recommend_goal_allocation`: the fixed three-tier asset-mix table
keyed by the years remaining to the goal. -/
def recommend_goal_allocation (years_to_goal : ℤ) : AssetMix :=
  if years_to_goal < 3 then ⟨20, 50, 30, 0, 0⟩
  else if years_to_goal < 7 then ⟨50, 30, 10, 5, 5⟩
  else ⟨70, 15, 5, 5, 5⟩

/-- The allocation-percent heuristic of `_analyze_goals`: a tier by time
horizon, capped at `goal_amount / (current_portfolio * 2)` when the
portfolio is positive, with the `0.1` fallback otherwise. -/
def goal_allocation_percent (years_to_goal : ℤ) (current_portfolio goal_amount : ℚ) :
    ℚ :=
  let tier : ℚ :=
    if years_to_goal ≤ 3 then 3 / 10
    else if years_to_goal ≤ 10 then 4 / 10
    else 3 / 10
  if 0 < current_portfolio then min tier (goal_amount / (current_portfolio * 2))
  else 1 / 10

/-- One element of the list produced by `_analyze_goals`. -/
structure GoalAnalysis where
  name : String
  target_amount : ℚ
  target_year : ℤ
  years_remaining : ℤ
  current_allocation : ℚ
  progress_percent : ℚ
  required_monthly_savings : RequiredSavings
  projected_to_achieve : Bool
  recommended_allocation : AssetMix
deriving DecidableEq

/-- The body of the per-goal loop of `_analyze_goals`. -/
def analyze_goal (current_year : ℤ) (current_portfolio : ℚ) (risk_tolerance : String)
    (timeline : List TimelineEntry) (goal : Goal) : GoalAnalysis :=
  let goal_year := goal.target_year
  let goal_amount := goal.target_amount
  let years_to_goal := goal_year - current_year
  let allocation_percent := goal_allocation_percent years_to_goal current_portfolio goal_amount
  let current_allocation := current_portfolio * allocation_percent
  let progress_percent := current_allocation / goal_amount * 100
  let goal_timeline := timeline.filter (fun t => t.year ≤ goal_year)
  let achieved_and_required : Bool × RequiredSavings :=
    match goal_timeline.getLast? with
    | none => (false, RequiredSavings.zero)
    | some final_entry =>
      let goal_achieved : Bool := goal.name ∈ final_entry.goals_achieved
      if 0 < years_to_goal ∧ goal_achieved = false then
        (goal_achieved,
          RequiredSavings.annuity (goal_amount - current_allocation)
            (get_expected_return_for_timeframe risk_tolerance years_to_goal)
            (years_to_goal * 12))
      else (goal_achieved, RequiredSavings.zero)
  { name := goal.name
    target_amount := goal_amount
    target_year := goal_year
    years_remaining := years_to_goal
    current_allocation := current_allocation
    progress_percent := progress_percent
    required_monthly_savings := achieved_and_required.2
    projected_to_achieve := achieved_and_required.1
    recommended_allocation := recommend_goal_allocation years_to_goal }

/-- `_analyze_goals`: one analysis per goal, in input order. -/
def analyze_goals (current_year : ℤ) (current_portfolio : ℚ) (risk_tolerance : String)
    (goals : List Goal) (timeline : List TimelineEntry) : List GoalAnalysis :=
  goals.map (analyze_goal current_year current_portfolio risk_tolerance timeline)

/-- The description of a recommendation.  Each constructor stands for one of
the four distinct description templates that
`_generate_roadmap_recommendations` appends ("Increase retirement savings",
"Accelerate savings for {goal}", "{Increase|Reduce} {asset class}
allocation", "Build emergency fund"). -/
inductive RecDescription where
  | increase_retirement_savings : RecDescription
  | accelerate_savings (goal_name : String) : RecDescription
  | adjust_asset_class (increase : Bool) (asset_class : String) : RecDescription
  | build_emergency_fund : RecDescription
deriving DecidableEq

/-- One recommendation dict: its `category`, `priority` and `description`
keys (the free-text `details` string is presentation only). -/
structure Recommendation where
  category : String
  priority : String
  description : RecDescription
deriving DecidableEq

/-- The `target_allocations` table of `_generate_roadmap_recommendations`,
in the dict's insertion order, with the `.get(..., moderate)` default. -/
def target_allocations (risk_tolerance : String) : List (String × ℚ) :=
  if risk_tolerance = "conservative" then
    [("Equity", 40), ("Bonds", 40), ("Cash", 10), ("Gold", 5), ("REIT", 5)]
  else if risk_tolerance = "moderate" then
    [("Equity", 60), ("Bonds", 25), ("Cash", 5), ("Gold", 5), ("REIT", 5)]
  else if risk_tolerance = "aggressive" then
    [("Equity", 80), ("Bonds", 10), ("Cash", 0), ("Gold", 5), ("REIT", 5)]
  else [("Equity", 60), ("Bonds", 25), ("Cash", 5), ("Gold", 5), ("REIT", 5)]

/-- `dict.get(key, 0)` on an asset-allocation snapshot. -/
def alloc_lookup (snapshot : List (String × ℚ)) (asset_class : String) : ℚ :=
  match snapshot.find? (fun p => p.1 = asset_class) with
  | none => 0
  | some p => p.2

/-- The first block of `_generate_roadmap_recommendations`: the retirement
recommendation, appended when the replacement ratio of the (recomputed)
retirement analysis is below 60. -/
def retirement_recs (profile : ClientProfile) (timeline : List TimelineEntry) :
    List Recommendation :=
  if (analyze_retirement profile.retirement_age timeline).income_replacement_ratio
      < 60 then
    [{ category := "Retirement", priority := "high",
       description := RecDescription.increase_retirement_savings }]
  else []

/-- The second block of `_generate_roadmap_recommendations`: one
goal-planning recommendation per near-term goal whose analysis shows less
than 70 percent progress. -/
def goal_planning_recs (current_year : ℤ) (portfolio_value : ℚ)
    (profile : ClientProfile) (timeline : List TimelineEntry) (goals : List Goal) :
    List Recommendation :=
  let near_term_goals := goals.filter (fun g => g.target_year - current_year ≤ 5)
  let goals_analysis :=
    analyze_goals current_year portfolio_value profile.risk_tolerance goals timeline
  near_term_goals.filterMap (fun goal =>
    match goals_analysis.find? (fun ga => ga.name = goal.name) with
    | none => none
    | some goal_analysis =>
      if goal_analysis.progress_percent < 70 then
        some { category := "Goal Planning", priority := "high",
               description := RecDescription.accelerate_savings goal.name }
      else none)

/-- The third block of `_generate_roadmap_recommendations`: rebalancing
recommendations for asset classes deviating by more than 15 points from the
risk-tier target, when an allocation snapshot is available. -/
def asset_allocation_recs (profile : ClientProfile)
    (asset_allocation : Option (List (String × ℚ))) : List Recommendation :=
  match asset_allocation with
  | none => []
  | some current =>
    (target_allocations profile.risk_tolerance).filterMap (fun tgt =>
      let current_pct := alloc_lookup current tgt.1
      if 15 < |current_pct - tgt.2| then
        some { category := "Asset Allocation", priority := "medium",
               description := RecDescription.adjust_asset_class
                 (current_pct < tgt.2) tgt.1 }
      else none)

/-- The fourth block of `_generate_roadmap_recommendations`: the
emergency-fund recommendation, appended when current cash reserves fall
below six months of income. -/
def emergency_fund_recs (portfolio_value : ℚ) (profile : ClientProfile)
    (asset_allocation : Option (List (String × ℚ))) : List Recommendation :=
  let emergency_fund := 6 * (profile.income / 12)
  let cash_allocation :=
    match asset_allocation with
    | none => 0
    | some current => alloc_lookup current "Cash"
  let current_cash := portfolio_value * (cash_allocation / 100)
  if current_cash < emergency_fund then
    [{ category := "Emergency Fund", priority := "high",
       description := RecDescription.build_emergency_fund }]
  else []

/-- `_generate_roadmap_recommendations`: the four blocks appended in source
order.  `asset_allocation` is the optional snapshot obtained from the
advisor (`None` when the advisor cannot supply one); `portfolio_value` is
the total portfolio value the source re-reads from the portfolio
analyzer. -/
def generate_roadmap_recommendations (current_year : ℤ) (portfolio_value : ℚ)
    (profile : ClientProfile) (asset_allocation : Option (List (String × ℚ)))
    (timeline : List TimelineEntry) (goals : List Goal) : List Recommendation :=
  retirement_recs profile timeline ++
    goal_planning_recs current_year portfolio_value profile timeline goals ++
    asset_allocation_recs profile asset_allocation ++
    emergency_fund_recs portfolio_value profile asset_allocation

/-- The roadmap dict assembled at the end of `create_financial_roadmap`. -/
structure Roadmap where
  current_portfolio : ℚ
  expected_annual_return : ℚ
  timeline : List TimelineEntry
  retirement_analysis : RetirementAnalysis
  goals_analysis : List GoalAnalysis
  recommendations : List Recommendation
deriving DecidableEq

/-- `create_financial_roadmap`: the timeline plus the three derived
analyses, computed from the sorted goal list exactly as in the source. -/
def create_financial_roadmap (current_year : ℤ) (portfolio_value : ℚ)
    (asset_allocation : Option (List (String × ℚ))) (profile : ClientProfile) :
    Roadmap :=
  let sorted_goals := sort_goals profile.financial_goals
  let timeline := roadmap_timeline current_year portfolio_value profile
  { current_portfolio := portfolio_value
    expected_annual_return := expected_return_rate profile.risk_tolerance * 100
    timeline := timeline
    retirement_analysis := analyze_retirement profile.retirement_age timeline
    goals_analysis :=
      analyze_goals current_year portfolio_value profile.risk_tolerance sorted_goals
        timeline
    recommendations :=
      generate_roadmap_recommendations current_year portfolio_value profile
        asset_allocation timeline sorted_goals }

/-- The annual rate that the specification attributes to the annuity
inversion: the simulator's risk-tier return rate (conservative 6%,
moderate 8%, aggressive 10%) adjusted by the horizon term.  This follows
the specification's words and exists only to be compared against the
source's `get_expected_return_for_timeframe`. -/
def spec_rate_for_horizon (risk_tolerance : String) (years : ℤ) : ℚ :=
  let base_rate := expected_return_rate risk_tolerance
  if years < 3 then base_rate - 2 / 100
  else if years < 10 then base_rate
  else base_rate + 1 / 100

/-- A timeline entry used as raw analyzer input in concrete checks: the
stated year, age, start-of-year portfolio value, income, achieved-goal set
and retirement flag, with the remaining monetary fields zero. -/
def test_entry (year age : ℤ) (pv inc : ℚ) (achieved : List String)
    (retired : Bool) : TimelineEntry :=
  { year := year, age := age, portfolio_value := pv, contribution := 0, growth := 0,
    goal_withdrawals := 0, retirement_withdrawal := 0, year_end_portfolio := 0,
    income := inc, goals_achieved := achieved, is_retired := retired }

/-- Concrete profile with no goals and no cash flows, not yet retired. -/
def profile_no_goals : ClientProfile :=
  { risk_tolerance := "conservative", age := 30, retirement_age := 60,
    monthly_savings := 0, income := 0, financial_goals := [] }

/-- Concrete profile whose retirement age equals its current age. -/
def profile_retire_now : ClientProfile :=
  { risk_tolerance := "moderate", age := 0, retirement_age := 0,
    monthly_savings := 0, income := 0, financial_goals := [] }

/-- Concrete profile with retirement age strictly below current age. -/
def profile_invalid : ClientProfile :=
  { risk_tolerance := "moderate", age := 40, retirement_age := 35,
    monthly_savings := 0, income := 0, financial_goals := [] }

/-- Concrete profile holding one goal five years out. -/
def profile_home_goal : ClientProfile :=
  { risk_tolerance := "moderate", age := 35, retirement_age := 60,
    monthly_savings := 0, income := 0, financial_goals := [⟨"Home", 1000, 2030⟩] }

/-- The concrete goal ⟨"Home", 1000, 2030⟩ of `profile_home_goal`. -/
def goal_home : Goal := ⟨"Home", 1000, 2030⟩

/-- A concrete goal five years after 2025, used against a timeline that
never marks it achieved. -/
def goal_far : Goal := ⟨"Car", 1000, 2030⟩

/-- A concrete goal due immediately (target year = current year 2025). -/
def goal_now : Goal := ⟨"Now", 500, 2025⟩

/-- First entry of the zero-cash-flow timeline of `profile_no_goals`. -/
def entry_zero_2025 : TimelineEntry :=
  { year := 2025, age := 30, portfolio_value := 0, contribution := 0, growth := 0,
    goal_withdrawals := 0, retirement_withdrawal := 0, year_end_portfolio := 0,
    income := 0, goals_achieved := [], is_retired := false }

/-- Second entry of the zero-cash-flow timeline of `profile_no_goals`. -/
def entry_zero_2026 : TimelineEntry :=
  { year := 2026, age := 31, portfolio_value := 0, contribution := 0, growth := 0,
    goal_withdrawals := 0, retirement_withdrawal := 0, year_end_portfolio := 0,
    income := 0, goals_achieved := [], is_retired := false }

/-- First entry of the timeline of `profile_retire_now`: already retired. -/
def entry_retired_2025 : TimelineEntry :=
  { year := 2025, age := 0, portfolio_value := 0, contribution := 0, growth := 0,
    goal_withdrawals := 0, retirement_withdrawal := 0, year_end_portfolio := 0,
    income := 0, goals_achieved := [], is_retired := true }

/-- One-entry analyzer input: year 2025, age 35, nothing achieved. -/
def timeline_one_2025 : List TimelineEntry := [test_entry 2025 35 0 0 [] false]

/-- One-entry analyzer input whose single age (30) is not the retirement
age used against it (60). -/
def timeline_no_retirement : List TimelineEntry := [test_entry 2025 30 0 0 [] false]

/-- Two-entry analyzer input with a negative pre-retirement income. -/
def timeline_neg_income : List TimelineEntry :=
  [test_entry 2024 59 0 (-100) [] false, test_entry 2025 60 1000 0 [] true]

/-- Two-entry analyzer input with a positive pre-retirement income. -/
def timeline_pos_income : List TimelineEntry :=
  [test_entry 2024 59 0 50 [] false, test_entry 2025 60 1000 0 [] true]

/-! ### Basic lemmas about the projection loop -/

theorem project_years_cons (goals : List Goal) (ca ra : ℤ) (asav ainc rr : ℚ)
    (cy : ℤ) (n : ℕ) (year : ℤ) (pv : ℚ) :
    project_years goals ca ra asav ainc rr cy (n + 1) year pv =
      { year := year
        age := ca + (year - cy)
        portfolio_value := pv
        contribution := if (decide (ra ≤ ca + (year - cy)) : Bool) then 0 else asav
        growth := pv * rr
        goal_withdrawals :=
          ((goals.filter (fun g => g.target_year = year)).map Goal.target_amount).sum
        retirement_withdrawal :=
          if (decide (ra ≤ ca + (year - cy)) : Bool) then pv * (4 / 100) else 0
        year_end_portfolio :=
          pv + pv * rr + (if (decide (ra ≤ ca + (year - cy)) : Bool) then 0 else asav) -
            ((goals.filter (fun g => g.target_year = year)).map Goal.target_amount).sum -
            (if (decide (ra ≤ ca + (year - cy)) : Bool) then pv * (4 / 100) else 0)
        income :=
          if (decide (ra ≤ ca + (year - cy)) : Bool) then
            (if (decide (ra ≤ ca + (year - cy)) : Bool) then pv * (4 / 100) else 0)
          else ainc * (105 / 100 : ℚ) ^ (year - cy).toNat
        goals_achieved := (goals.filter (fun g => g.target_year = year)).map Goal.name
        is_retired := decide (ra ≤ ca + (year - cy)) } ::
      project_years goals ca ra asav ainc rr cy n (year + 1)
        (pv + pv * rr + (if (decide (ra ≤ ca + (year - cy)) : Bool) then 0 else asav) -
          ((goals.filter (fun g => g.target_year = year)).map Goal.target_amount).sum -
          (if (decide (ra ≤ ca + (year - cy)) : Bool) then pv * (4 / 100) else 0)) := rfl

theorem project_years_length (goals : List Goal) (ca ra : ℤ) (asav ainc rr : ℚ)
    (cy : ℤ) : ∀ (n : ℕ) (year : ℤ) (pv : ℚ),
    (project_years goals ca ra asav ainc rr cy n year pv).length = n := by
  intro n
  induction n with
  | zero => intro year pv; simp [project_years]
  | succ k ih =>
    intro year pv
    rw [project_years_cons]
    simp [ih]

theorem project_years_balance (goals : List Goal) (ca ra : ℤ) (asav ainc rr : ℚ)
    (cy : ℤ) : ∀ (n : ℕ) (year : ℤ) (pv : ℚ) (e : TimelineEntry),
    e ∈ project_years goals ca ra asav ainc rr cy n year pv →
    e.year_end_portfolio =
      e.portfolio_value + e.growth + e.contribution - e.goal_withdrawals -
        e.retirement_withdrawal := by
  intro n
  induction n with
  | zero => intro year pv e he; simp [project_years] at he
  | succ k ih =>
    intro year pv e he
    rw [project_years_cons, List.mem_cons] at he
    rcases he with rfl | he
    · rfl
    · exact ih _ _ _ he

theorem project_years_head_pv (goals : List Goal) (ca ra : ℤ) (asav ainc rr : ℚ)
    (cy : ℤ) (n : ℕ) (year : ℤ) (pv : ℚ) (e : TimelineEntry)
    (h : (project_years goals ca ra asav ainc rr cy n year pv)[0]? = some e) :
    e.portfolio_value = pv := by
  match n with
  | 0 => simp [project_years] at h
  | k + 1 =>
    rw [project_years_cons, List.getElem?_cons_zero, Option.some.injEq] at h
    subst h
    rfl

theorem project_years_chain (goals : List Goal) (ca ra : ℤ) (asav ainc rr : ℚ)
    (cy : ℤ) : ∀ (n : ℕ) (year : ℤ) (pv : ℚ) (i : ℕ) (e1 e2 : TimelineEntry),
    (project_years goals ca ra asav ainc rr cy n year pv)[i]? = some e1 →
    (project_years goals ca ra asav ainc rr cy n year pv)[i + 1]? = some e2 →
    e2.portfolio_value = e1.year_end_portfolio := by
  intro n
  induction n with
  | zero => intro year pv i e1 e2 h1 _; simp [project_years] at h1
  | succ k ih =>
    intro year pv i e1 e2 h1 h2
    match i with
    | 0 =>
      rw [project_years_cons, List.getElem?_cons_zero, Option.some.injEq] at h1
      rw [project_years_cons, List.getElem?_cons_succ] at h2
      have := project_years_head_pv goals ca ra asav ainc rr cy k _ _ _ h2
      rw [this, ← h1]
    | j + 1 =>
      rw [project_years_cons, List.getElem?_cons_succ] at h1 h2
      exact ih _ _ _ _ _ h1 h2

theorem project_years_mem_year_lb (goals : List Goal) (ca ra : ℤ) (asav ainc rr : ℚ)
    (cy : ℤ) : ∀ (n : ℕ) (year : ℤ) (pv : ℚ) (e : TimelineEntry),
    e ∈ project_years goals ca ra asav ainc rr cy n year pv → year ≤ e.year := by
  intro n
  induction n with
  | zero => intro year pv e he; simp [project_years] at he
  | succ k ih =>
    intro year pv e he
    rw [project_years_cons, List.mem_cons] at he
    rcases he with rfl | he
    · exact le_refl _
    · have := ih _ _ _ he
      omega

theorem project_years_all_retired (goals : List Goal) (ca ra : ℤ) (asav ainc rr : ℚ)
    (cy : ℤ) : ∀ (n : ℕ) (year : ℤ) (pv : ℚ), ra ≤ ca + (year - cy) →
    ∀ e ∈ project_years goals ca ra asav ainc rr cy n year pv,
    e.is_retired = true := by
  intro n
  induction n with
  | zero => intro year pv _ e he; simp [project_years] at he
  | succ k ih =>
    intro year pv hra e he
    rw [project_years_cons, List.mem_cons] at he
    rcases he with rfl | he
    · simpa using hra
    · exact ih (year + 1) _ (by omega) e he

theorem project_years_getElem?_spec (goals : List Goal) (ca ra : ℤ)
    (asav ainc rr : ℚ) (cy : ℤ) : ∀ (n : ℕ) (year : ℤ) (pv : ℚ) (i : ℕ)
    (e : TimelineEntry),
    (project_years goals ca ra asav ainc rr cy n year pv)[i]? = some e →
    e.year = year + i ∧
      e.goals_achieved =
        (goals.filter (fun g => g.target_year = year + i)).map Goal.name := by
  intro n
  induction n with
  | zero => intro year pv i e h; simp [project_years] at h
  | succ k ih =>
    intro year pv i e h
    match i with
    | 0 =>
      rw [project_years_cons, List.getElem?_cons_zero, Option.some.injEq] at h
      subst h
      constructor
      · simp
      · simp
    | j + 1 =>
      rw [project_years_cons, List.getElem?_cons_succ] at h
      have := ih _ _ _ _ h
      constructor
      · rw [this.1]; push_cast; ring
      · rw [this.2]
        have : year + 1 + (j : ℤ) = year + ((j : ℤ) + 1) := by ring
        rw [this]
        push_cast
        ring_nf

theorem mem_sort_goals (g : Goal) (goals : List Goal) :
    g ∈ sort_goals goals ↔ g ∈ goals := by
  simp [sort_goals]

theorem project_years_filter_getLast (goals : List Goal) (ca ra : ℤ)
    (asav ainc rr : ℚ) (cy : ℤ) : ∀ (n : ℕ) (year : ℤ) (pv : ℚ) (ty : ℤ),
    year ≤ ty → ty < year + n →
    ∃ e, ((project_years goals ca ra asav ainc rr cy n year pv).filter
        (fun t => t.year ≤ ty)).getLast? = some e ∧
      e.year = ty ∧
      e.goals_achieved = (goals.filter (fun g => g.target_year = ty)).map Goal.name := by
  intro n
  induction n with
  | zero => intro year pv ty h1 h2; omega
  | succ k ih =>
    intro year pv ty h1 h2
    rw [project_years_cons]
    rw [List.filter_cons_of_pos (by simpa using h1)]
    by_cases hy : year = ty
    · subst hy
      have hnil : (project_years goals ca ra asav ainc rr cy k (year + 1)
          (pv + pv * rr + (if (decide (ra ≤ ca + (year - cy)) : Bool) then 0 else asav) -
            ((goals.filter (fun g => g.target_year = year)).map Goal.target_amount).sum -
            (if (decide (ra ≤ ca + (year - cy)) : Bool) then pv * (4 / 100) else 0))).filter
          (fun t => t.year ≤ year) = [] := by
        rw [List.filter_eq_nil_iff]
        intro e he
        have := project_years_mem_year_lb goals ca ra asav ainc rr cy k _ _ _ he
        simp only [decide_eq_true_eq]
        omega
      rw [hnil]
      exact ⟨_, rfl, rfl, rfl⟩
    · have h1' : year + 1 ≤ ty := by omega
      have h2' : ty < (year + 1) + k := by omega
      obtain ⟨e, he, hy2, hg⟩ := ih (year + 1) _ ty h1' h2'
      refine ⟨e, ?_, hy2, hg⟩
      rcases hfr : (project_years goals ca ra asav ainc rr cy k (year + 1)
          (pv + pv * rr + (if (decide (ra ≤ ca + (year - cy)) : Bool) then 0 else asav) -
            ((goals.filter (fun g => g.target_year = year)).map Goal.target_amount).sum -
            (if (decide (ra ≤ ca + (year - cy)) : Bool) then pv * (4 / 100) else 0))).filter
          (fun t => t.year ≤ ty) with _ | ⟨c, t⟩
      · rw [hfr] at he; simp at he
      · rw [hfr] at he
        rw [hfr, List.getLast?_cons_cons]
        exact he

theorem goal_planning_recs_description (current_year : ℤ) (portfolio_value : ℚ)
    (profile : ClientProfile) (timeline : List TimelineEntry) (goals : List Goal)
    (r : Recommendation)
    (hr : r ∈ goal_planning_recs current_year portfolio_value profile timeline goals) :
    ∃ s, r.description = RecDescription.accelerate_savings s := by
  simp only [goal_planning_recs, List.mem_filterMap] at hr
  obtain ⟨g, -, hfg⟩ := hr
  split at hfg
  · simp at hfg
  · split at hfg
    · rw [Option.some.injEq] at hfg
      subst hfg
      exact ⟨g.name, rfl⟩
    · simp at hfg

theorem asset_allocation_recs_description (profile : ClientProfile)
    (asset_allocation : Option (List (String × ℚ))) (r : Recommendation)
    (hr : r ∈ asset_allocation_recs profile asset_allocation) :
    ∃ b s, r.description = RecDescription.adjust_asset_class b s := by
  rcases asset_allocation with _ | current
  · simp [asset_allocation_recs] at hr
  · simp only [asset_allocation_recs, List.mem_filterMap] at hr
    obtain ⟨tgt, -, hfg⟩ := hr
    by_cases hd : (15 : ℚ) < |alloc_lookup current tgt.1 - tgt.2|
    · rw [if_pos hd, Option.some.injEq] at hfg
      subst hfg
      exact ⟨_, _, rfl⟩
    · rw [if_neg hd] at hfg; simp at hfg

theorem emergency_fund_recs_description (portfolio_value : ℚ)
    (profile : ClientProfile) (asset_allocation : Option (List (String × ℚ)))
    (r : Recommendation) (hr : r ∈ emergency_fund_recs portfolio_value profile
      asset_allocation) :
    r.description = RecDescription.build_emergency_fund := by
  simp only [emergency_fund_recs] at hr
  split at hr
  · simp only [List.mem_singleton] at hr
    subst hr
    rfl
  · simp at hr

/-! ### Concrete evaluations used by the witnesses -/

theorem entry_zero_2025_mem : entry_zero_2025 ∈ roadmap_timeline 2025 0 profile_no_goals := by
  show entry_zero_2025 ∈ project_years (sort_goals profile_no_goals.financial_goals)
    profile_no_goals.age profile_no_goals.retirement_age
    (profile_no_goals.monthly_savings * 12) profile_no_goals.income
    (expected_return_rate profile_no_goals.risk_tolerance) 2025 (39 + 1) 2025 0
  rw [project_years_cons]
  refine List.mem_cons.mpr (Or.inl ?_)
  simp only [profile_no_goals, sort_goals, expected_return_rate, entry_zero_2025]
  norm_num

theorem roadmap_no_goals_get0 :
    (roadmap_timeline 2025 0 profile_no_goals)[0]? = some entry_zero_2025 := by
  show (project_years (sort_goals profile_no_goals.financial_goals)
    profile_no_goals.age profile_no_goals.retirement_age
    (profile_no_goals.monthly_savings * 12) profile_no_goals.income
    (expected_return_rate profile_no_goals.risk_tolerance) 2025 (38 + 1 + 1) 2025 0)[0]?
    = some entry_zero_2025
  rw [project_years_cons, List.getElem?_cons_zero, Option.some.injEq]
  simp only [profile_no_goals, sort_goals, expected_return_rate, entry_zero_2025]
  norm_num

theorem roadmap_no_goals_get1 :
    (roadmap_timeline 2025 0 profile_no_goals)[1]? = some entry_zero_2026 := by
  show (project_years (sort_goals profile_no_goals.financial_goals)
    profile_no_goals.age profile_no_goals.retirement_age
    (profile_no_goals.monthly_savings * 12) profile_no_goals.income
    (expected_return_rate profile_no_goals.risk_tolerance) 2025 (38 + 1 + 1) 2025 0)[1]?
    = some entry_zero_2026
  rw [project_years_cons]
  rw [show (1 : ℕ) = 0 + 1 from rfl, List.getElem?_cons_succ]
  rw [project_years_cons, List.getElem?_cons_zero, Option.some.injEq]
  simp only [profile_no_goals, sort_goals, expected_return_rate, entry_zero_2026]
  norm_num

theorem entry_retired_2025_mem :
    entry_retired_2025 ∈ roadmap_timeline 2025 0 profile_retire_now := by
  show entry_retired_2025 ∈ project_years (sort_goals profile_retire_now.financial_goals)
    profile_retire_now.age profile_retire_now.retirement_age
    (profile_retire_now.monthly_savings * 12) profile_retire_now.income
    (expected_return_rate profile_retire_now.risk_tolerance) 2025 (39 + 1) 2025 0
  rw [project_years_cons]
  refine List.mem_cons.mpr (Or.inl ?_)
  simp only [profile_retire_now, sort_goals, expected_return_rate, entry_retired_2025]
  norm_num

/-! ### The claims -/

/-- C1: for every TimelineEntry produced by the roadmap simulation, the
end-of-year portfolio value equals the start-of-year value plus growth plus
contribution minus goal withdrawals minus retirement withdrawal, exactly,
for every starting portfolio value and every ClientProfile. -/
theorem timeline_entry_balance (current_year : ℤ) (portfolio_value : ℚ)
    (profile : ClientProfile) (e : TimelineEntry)
    (he : e ∈ roadmap_timeline current_year portfolio_value profile) :
    e.year_end_portfolio =
      e.portfolio_value + e.growth + e.contribution - e.goal_withdrawals -
        e.retirement_withdrawal :=
  project_years_balance _ _ _ _ _ _ _ _ _ _ _ he

/-- Witness for C1 at `profile_no_goals`, starting value 0, year 2025. -/
theorem timeline_entry_balance_check :
    entry_zero_2025 ∈ roadmap_timeline 2025 0 profile_no_goals ∧
    entry_zero_2025.year_end_portfolio =
      entry_zero_2025.portfolio_value + entry_zero_2025.growth +
        entry_zero_2025.contribution - entry_zero_2025.goal_withdrawals -
        entry_zero_2025.retirement_withdrawal :=
  ⟨entry_zero_2025_mem,
    timeline_entry_balance 2025 0 profile_no_goals entry_zero_2025 entry_zero_2025_mem⟩

/-- C2: in every timeline produced by the roadmap simulation, the
start-of-year portfolio value of entry i+1 equals the end-of-year portfolio
value of entry i. -/
theorem timeline_chain (current_year : ℤ) (portfolio_value : ℚ)
    (profile : ClientProfile) (i : ℕ) (e1 e2 : TimelineEntry)
    (h1 : (roadmap_timeline current_year portfolio_value profile)[i]? = some e1)
    (h2 : (roadmap_timeline current_year portfolio_value profile)[i + 1]? = some e2) :
    e2.portfolio_value = e1.year_end_portfolio :=
  project_years_chain _ _ _ _ _ _ _ _ _ _ _ _ _ h1 h2

/-- Witness for C2 at `profile_no_goals`, entries 0 and 1. -/
theorem timeline_chain_check :
    (roadmap_timeline 2025 0 profile_no_goals)[0]? = some entry_zero_2025 ∧
    (roadmap_timeline 2025 0 profile_no_goals)[0 + 1]? = some entry_zero_2026 ∧
    entry_zero_2026.portfolio_value = entry_zero_2025.year_end_portfolio :=
  ⟨roadmap_no_goals_get0, roadmap_no_goals_get1,
    timeline_chain 2025 0 profile_no_goals 0 entry_zero_2025 entry_zero_2026
      roadmap_no_goals_get0 roadmap_no_goals_get1⟩

/-- C3 counterexample: a profile whose retirement age (35) is strictly
below its current age (40) is not rejected: the simulation computes all 40
years for it.  There is no `ConfigurationError` (or any other profile
validation) anywhere in the source. -/
theorem invalid_profile_still_simulated :
    profile_invalid.retirement_age ≤ profile_invalid.age ∧
    (roadmap_timeline 2025 1000 profile_invalid).length = 40 :=
  ⟨by decide, project_years_length _ _ _ _ _ _ _ _ _ _⟩

/-- C3 amended: the roadmap simulation performs no profile validation and
has no failure mode at all: for every profile — including every profile
with retirement_age ≤ current_age — it produces a full 40-entry
timeline. -/
theorem simulation_never_fails (current_year : ℤ) (portfolio_value : ℚ)
    (profile : ClientProfile) :
    (roadmap_timeline current_year portfolio_value profile).length = 40 :=
  project_years_length _ _ _ _ _ _ _ _ _ _

/-- C8: a ClientProfile whose retirement age equals its current age yields
a timeline in which every entry is marked retired, from the first simulated
year on. -/
theorem retire_at_current_age_all_retired (current_year : ℤ) (portfolio_value : ℚ)
    (profile : ClientProfile) (e : TimelineEntry)
    (hp : profile.retirement_age = profile.age)
    (he : e ∈ roadmap_timeline current_year portfolio_value profile) :
    e.is_retired = true :=
  project_years_all_retired _ _ _ _ _ _ _ _ _ _ (by omega) e he

/-- Witness for C8 at `profile_retire_now` (age 0 = retirement age 0). -/
theorem retire_at_current_age_all_retired_check :
    profile_retire_now.retirement_age = profile_retire_now.age ∧
    entry_retired_2025 ∈ roadmap_timeline 2025 0 profile_retire_now ∧
    entry_retired_2025.is_retired = true :=
  ⟨by decide, entry_retired_2025_mem,
    retire_at_current_age_all_retired 2025 0 profile_retire_now entry_retired_2025
      (by decide) entry_retired_2025_mem⟩

/-- C5 counterexample: on a timeline with no entry at the retirement age,
`_analyze_retirement` returns status "Unknown" with the three numeric
fields zeroed, but the `portfolio_sustainability` and `portfolio_at_age_90`
keys are absent from the returned dict (`none`), not zeroed as claimed. -/
theorem unknown_analysis_fields_absent :
    (∀ e ∈ timeline_no_retirement, e.age ≠ 60) ∧
    (analyze_retirement 60 timeline_no_retirement).status = "Unknown" ∧
    (analyze_retirement 60 timeline_no_retirement).portfolio_sustainability = none ∧
    (analyze_retirement 60 timeline_no_retirement).portfolio_at_age_90 = none ∧
    (analyze_retirement 60 timeline_no_retirement).portfolio_at_age_90 ≠ some 0 := by
  refine ⟨?_, ?_, ?_, ?_, ?_⟩ <;>
    simp [analyze_retirement, timeline_no_retirement, test_entry]

/-- C5 amended: on a timeline with no entry at the retirement age the
analysis is the degenerate record: status "Unknown" (distinct from the four
normal statuses), retirement_corpus, sustainable_income and
income_replacement_ratio zeroed, and the portfolio_sustainability and
portfolio-at-horizon-end fields absent (not zeroed). -/
theorem unknown_analysis_zeroes_and_omits (retirement_age : ℤ)
    (timeline : List TimelineEntry) (h : ∀ e ∈ timeline, e.age ≠ retirement_age) :
    analyze_retirement retirement_age timeline =
      { status := "Unknown", retirement_corpus := 0, sustainable_income := 0,
        income_replacement_ratio := 0, portfolio_sustainability := none,
        portfolio_at_age_90 := none } := by
  have hf : timeline.filter (fun t => t.age = retirement_age) = [] := by
    rw [List.filter_eq_nil_iff]
    intro e he
    simpa using h e he
  unfold analyze_retirement
  rw [hf]

/-- Witness for C5 at retirement age 60 and `timeline_no_retirement`. -/
theorem unknown_analysis_zeroes_and_omits_check :
    (∀ e ∈ timeline_no_retirement, e.age ≠ 60) ∧
    analyze_retirement 60 timeline_no_retirement =
      { status := "Unknown", retirement_corpus := 0, sustainable_income := 0,
        income_replacement_ratio := 0, portfolio_sustainability := none,
        portfolio_at_age_90 := none } :=
  ⟨by decide, unknown_analysis_zeroes_and_omits 60 timeline_no_retirement (by decide)⟩

/-- C6 counterexample: on a (hand-made) timeline whose pre-retirement
income is negative (-100), the code returns ratio 0 (its guard is
`pre_retirement_income > 0`), while the claimed formula
`sustainable_income / pre_retirement_income * 100` gives -40: the claim's
"otherwise" branch fails when the pre-retirement income is nonzero but
negative. -/
theorem replacement_formula_fails_on_negative_income :
    pre_retirement_income 60 timeline_neg_income = -100 ∧
    (analyze_retirement 60 timeline_neg_income).income_replacement_ratio = 0 ∧
    (analyze_retirement 60 timeline_neg_income).sustainable_income /
        pre_retirement_income 60 timeline_neg_income * 100 = -40 ∧
    (analyze_retirement 60 timeline_neg_income).income_replacement_ratio ≠
      (analyze_retirement 60 timeline_neg_income).sustainable_income /
        pre_retirement_income 60 timeline_neg_income * 100 := by
  refine ⟨?_, ?_, ?_, ?_⟩ <;>
    norm_num [analyze_retirement, pre_retirement_income, timeline_neg_income, test_entry]

/-- C6 amended: the income replacement ratio is exactly 0 whenever the
pre-retirement income is ≤ 0 (the code guards with `> 0`, not `== 0`, so
the zero case never divides); when the pre-retirement income is strictly
positive, the ratio equals sustainable_income divided by that income times
100. -/
theorem replacement_ratio_guard (retirement_age : ℤ) (timeline : List TimelineEntry) :
    (pre_retirement_income retirement_age timeline ≤ 0 →
      (analyze_retirement retirement_age timeline).income_replacement_ratio = 0) ∧
    (0 < pre_retirement_income retirement_age timeline →
      (analyze_retirement retirement_age timeline).income_replacement_ratio =
        (analyze_retirement retirement_age timeline).sustainable_income /
          pre_retirement_income retirement_age timeline * 100) := by
  unfold analyze_retirement
  split
  · exact ⟨fun _ => rfl, fun _ => by simp⟩
  · constructor
    · intro hle
      dsimp only
      rw [if_neg (not_lt.mpr hle)]
    · intro hpos
      dsimp only
      rw [if_pos hpos]

/-- Witness for C6 on `timeline_pos_income` (pre-retirement income 50,
corpus 1000, ratio 80) and `timeline_neg_income` (income -100, ratio 0). -/
theorem replacement_ratio_guard_check :
    (0 < pre_retirement_income 60 timeline_pos_income ∧
      (analyze_retirement 60 timeline_pos_income).income_replacement_ratio =
        (analyze_retirement 60 timeline_pos_income).sustainable_income /
          pre_retirement_income 60 timeline_pos_income * 100) ∧
    (pre_retirement_income 60 timeline_neg_income ≤ 0 ∧
      (analyze_retirement 60 timeline_neg_income).income_replacement_ratio = 0) :=
  ⟨⟨by norm_num [pre_retirement_income, timeline_pos_income, test_entry],
    (replacement_ratio_guard 60 timeline_pos_income).2
      (by norm_num [pre_retirement_income, timeline_pos_income, test_entry])⟩,
   ⟨by norm_num [pre_retirement_income, timeline_neg_income, test_entry],
    (replacement_ratio_guard 60 timeline_neg_income).1
      (by norm_num [pre_retirement_income, timeline_neg_income, test_entry])⟩⟩

/-- C7: a goal whose years_remaining is 0 and which is not marked achieved
in its target year never reaches the annuity inversion: its
required_monthly_savings stays at the initial 0 (the guard is
`years_to_goal > 0 and not goal_achieved`), so no division by zero months
can occur. -/
theorem immediate_goal_skips_annuity (current_year : ℤ) (portfolio_value : ℚ)
    (risk_tolerance : String) (timeline : List TimelineEntry) (goal : Goal)
    (hy : goal.target_year - current_year = 0)
    (hn : ∀ fe, (timeline.filter (fun t => t.year ≤ goal.target_year)).getLast? =
      some fe → goal.name ∉ fe.goals_achieved) :
    (analyze_goal current_year portfolio_value risk_tolerance timeline
      goal).required_monthly_savings = RequiredSavings.zero := by
  unfold analyze_goal
  dsimp only
  split
  · rfl
  · rw [if_neg]
    rw [hy]
    simp

/-- Witness for C7 at `goal_now` (target year 2025 = current year) against
`timeline_one_2025`, which never marks it achieved. -/
theorem immediate_goal_skips_annuity_check :
    goal_now.target_year - 2025 = 0 ∧
    (∀ fe, (timeline_one_2025.filter (fun t => t.year ≤ goal_now.target_year)).getLast? =
      some fe → goal_now.name ∉ fe.goals_achieved) ∧
    (analyze_goal 2025 0 "moderate" timeline_one_2025 goal_now).required_monthly_savings =
      RequiredSavings.zero :=
  ⟨by decide, by decide,
    immediate_goal_skips_annuity 2025 0 "moderate" timeline_one_2025 goal_now
      (by decide) (by decide)⟩

/-- C4 counterexample: for a moderate-risk goal five years out that is not
achieved, the annuity inversion is invoked with annual rate 7% — the
goal-specific base table of `_get_expected_return_for_timeframe`
(5%/7%/9%) with zero horizon adjustment — whereas the claim predicts the
simulator's tier rate 8% (6%/8%/10% adjusted by the same horizon term,
`spec_rate_for_horizon`). -/
theorem annuity_rate_differs_from_simulator_rate :
    (analyze_goal 2025 0 "moderate" timeline_one_2025 goal_far).required_monthly_savings =
      RequiredSavings.annuity 1000 (7 / 100) 60 ∧
    spec_rate_for_horizon "moderate" (goal_far.target_year - 2025) = 8 / 100 ∧
    (7 / 100 : ℚ) ≠ 8 / 100 := by
  refine ⟨?_, ?_, by norm_num⟩
  · norm_num [analyze_goal, timeline_one_2025, goal_far, test_entry,
      goal_allocation_percent, get_expected_return_for_timeframe, goal_base_rate]
    decide
  · norm_num [spec_rate_for_horizon, expected_return_rate, goal_far]
    decide

/-- C4 amended: for every goal that is not achieved and has
years_remaining > 0, the annual rate used in the annuity inversion is the
goal-specific base rate of `_get_expected_return_for_timeframe`
(conservative 5%, moderate 7%, aggressive 9% — each one percentage point
below the simulator's tier rate) adjusted by the horizon term: minus 2
points if years_remaining < 3, unchanged if < 10, plus 1 point if ≥ 10. -/
theorem annuity_rate_uses_goal_base_rate (current_year : ℤ) (portfolio_value : ℚ)
    (risk_tolerance : String) (timeline : List TimelineEntry) (goal : Goal)
    (fe : TimelineEntry)
    (hy : 0 < goal.target_year - current_year)
    (hl : (timeline.filter (fun t => t.year ≤ goal.target_year)).getLast? = some fe)
    (hn : goal.name ∉ fe.goals_achieved) :
    (analyze_goal current_year portfolio_value risk_tolerance timeline
        goal).required_monthly_savings =
      RequiredSavings.annuity
        (goal.target_amount - portfolio_value *
          goal_allocation_percent (goal.target_year - current_year) portfolio_value
            goal.target_amount)
        (goal_base_rate risk_tolerance +
          (if goal.target_year - current_year < 3 then -(2 / 100)
           else if goal.target_year - current_year < 10 then 0 else 1 / 100))
        ((goal.target_year - current_year) * 12) := by
  have hr : get_expected_return_for_timeframe risk_tolerance
      (goal.target_year - current_year) =
      goal_base_rate risk_tolerance +
        (if goal.target_year - current_year < 3 then -(2 / 100)
         else if goal.target_year - current_year < 10 then 0 else 1 / 100) := by
    unfold get_expected_return_for_timeframe
    split_ifs <;> ring
  unfold analyze_goal
  dsimp only
  rw [hl]
  dsimp only
  rw [if_pos ⟨hy, by simpa using hn⟩, hr]

/-- Witness for C4's amended statement at the counterexample's inputs. -/
theorem annuity_rate_uses_goal_base_rate_check :
    0 < goal_far.target_year - 2025 ∧
    (timeline_one_2025.filter (fun t => t.year ≤ goal_far.target_year)).getLast? =
      some (test_entry 2025 35 0 0 [] false) ∧
    goal_far.name ∉ (test_entry 2025 35 0 0 [] false).goals_achieved ∧
    (analyze_goal 2025 0 "moderate" timeline_one_2025 goal_far).required_monthly_savings =
      RequiredSavings.annuity
        (goal_far.target_amount - 0 *
          goal_allocation_percent (goal_far.target_year - 2025) 0 goal_far.target_amount)
        (goal_base_rate "moderate" +
          (if goal_far.target_year - 2025 < 3 then -(2 / 100)
           else if goal_far.target_year - 2025 < 10 then 0 else 1 / 100))
        ((goal_far.target_year - 2025) * 12) :=
  ⟨by decide, by decide, by decide,
    annuity_rate_uses_goal_base_rate 2025 0 "moderate" timeline_one_2025 goal_far
      (test_entry 2025 35 0 0 [] false) (by decide) (by decide) (by decide)⟩

/-- C9: the recommendation engine emits the high-priority
"increase retirement savings" recommendation — the full record with
category "Retirement", priority "high" and the increase-retirement-savings
description — exactly when the retirement analysis's income replacement
ratio is strictly below 60, for every timeline, profile, goal list,
portfolio value and allocation snapshot. -/
theorem retirement_rec_iff_low_ratio (current_year : ℤ) (portfolio_value : ℚ)
    (profile : ClientProfile) (asset_allocation : Option (List (String × ℚ)))
    (timeline : List TimelineEntry) (goals : List Goal) :
    ({ category := "Retirement", priority := "high",
       description := RecDescription.increase_retirement_savings } :
        Recommendation) ∈
        generate_roadmap_recommendations current_year portfolio_value profile
          asset_allocation timeline goals ↔
      (analyze_retirement profile.retirement_age timeline).income_replacement_ratio
        < 60 := by
  constructor
  · intro h
    simp only [generate_roadmap_recommendations, List.mem_append] at h
    rcases h with ((h | h) | h) | h
    · by_cases hlt : (analyze_retirement profile.retirement_age
          timeline).income_replacement_ratio < 60
      · exact hlt
      · rw [retirement_recs, if_neg hlt] at h
        simp at h
    · obtain ⟨s, hs⟩ := goal_planning_recs_description _ _ _ _ _ _ h
      simp at hs
    · obtain ⟨b, s, hs⟩ := asset_allocation_recs_description _ _ _ h
      simp at hs
    · have hs := emergency_fund_recs_description _ _ _ _ h
      simp at hs
  · intro hlt
    simp only [generate_roadmap_recommendations, List.mem_append]
    refine Or.inl (Or.inl (Or.inl ?_))
    rw [retirement_recs, if_pos hlt]
    exact List.mem_singleton.mpr rfl

/-- C10: every goal whose target year falls within the simulated horizon is
marked achieved in its target year's entry (purely by calendar-year match,
independent of the portfolio value), and the goal analysis of the roadmap
reports it as projected to achieve. -/
theorem in_horizon_goal_marked_achieved (current_year : ℤ) (portfolio_value : ℚ)
    (asset_allocation : Option (List (String × ℚ))) (profile : ClientProfile)
    (g : Goal) (hg : g ∈ profile.financial_goals)
    (h1 : current_year ≤ g.target_year) (h2 : g.target_year ≤ current_year + 39) :
    (∃ e, (roadmap_timeline current_year portfolio_value profile)[
        (g.target_year - current_year).toNat]? = some e ∧
      g.name ∈ e.goals_achieved) ∧
    analyze_goal current_year portfolio_value profile.risk_tolerance
        (roadmap_timeline current_year portfolio_value profile) g ∈
      (create_financial_roadmap current_year portfolio_value asset_allocation
        profile).goals_analysis ∧
    (analyze_goal current_year portfolio_value profile.risk_tolerance
        (roadmap_timeline current_year portfolio_value profile)
        g).projected_to_achieve = true := by
  have hgs : g ∈ sort_goals profile.financial_goals := (mem_sort_goals g _).mpr hg
  have hfilter : g ∈ (sort_goals profile.financial_goals).filter
      (fun x => x.target_year = g.target_year) :=
    List.mem_filter.mpr ⟨hgs, by simp⟩
  refine ⟨?_, ?_, ?_⟩
  · have hlen : (roadmap_timeline current_year portfolio_value profile).length = 40 :=
      project_years_length _ _ _ _ _ _ _ _ _ _
    have hidx : (g.target_year - current_year).toNat <
        (roadmap_timeline current_year portfolio_value profile).length := by
      rw [hlen]; omega
    have hsome := List.getElem?_eq_getElem hidx
    have hspec := project_years_getElem?_spec (sort_goals profile.financial_goals)
      profile.age profile.retirement_age (profile.monthly_savings * 12) profile.income
      (expected_return_rate profile.risk_tolerance) current_year horizon current_year
      portfolio_value (g.target_year - current_year).toNat _ hsome
    refine ⟨_, hsome, ?_⟩
    rw [hspec.2]
    have hyear : current_year + ((g.target_year - current_year).toNat : ℤ) =
        g.target_year := by omega
    rw [hyear]
    exact List.mem_map.mpr ⟨g, hfilter, rfl⟩
  · simp only [create_financial_roadmap, analyze_goals]
    exact List.mem_map_of_mem _ hgs
  · have hbound : g.target_year < current_year + (horizon : ℕ) := by
      simp only [horizon]; omega
    obtain ⟨fe, hfe, hfy, hfg⟩ := project_years_filter_getLast
      (sort_goals profile.financial_goals) profile.age profile.retirement_age
      (profile.monthly_savings * 12) profile.income
      (expected_return_rate profile.risk_tolerance) current_year horizon current_year
      portfolio_value g.target_year h1 hbound
    have hach : g.name ∈ fe.goals_achieved := by
      rw [hfg]
      exact List.mem_map.mpr ⟨g, hfilter, rfl⟩
    unfold analyze_goal roadmap_timeline
    dsimp only
    rw [hfe]
    dsimp only
    split <;> simp [hach]

/-- Witness for C10 at `profile_home_goal` and its goal ⟨"Home", 1000, 2030⟩
five years into the 2025-based horizon. -/
theorem in_horizon_goal_marked_achieved_check :
    goal_home ∈ profile_home_goal.financial_goals ∧
    2025 ≤ goal_home.target_year ∧ goal_home.target_year ≤ 2025 + 39 ∧
    ((∃ e, (roadmap_timeline 2025 0 profile_home_goal)[
        (goal_home.target_year - 2025).toNat]? = some e ∧
      goal_home.name ∈ e.goals_achieved) ∧
    analyze_goal 2025 0 profile_home_goal.risk_tolerance
        (roadmap_timeline 2025 0 profile_home_goal) goal_home ∈
      (create_financial_roadmap 2025 0 none profile_home_goal).goals_analysis ∧
    (analyze_goal 2025 0 profile_home_goal.risk_tolerance
        (roadmap_timeline 2025 0 profile_home_goal)
        goal_home).projected_to_achieve = true) :=
  ⟨by decide, by decide, by decide,
    in_horizon_goal_marked_achieved 2025 0 none profile_home_goal goal_home
      (by decide) (by decide) (by decide)⟩
